import Mathlib

/-!
Shallow embedding of the `StripeEventsToSns` AWS CDK construct
(`src/index.ts`) and proofs about its composition behaviour.

The construct body (the constructor of `StripeEventsToSns`) does, in order:
1. validation of the four required props, accumulating error messages;
2. creation of an EventBridge rule (source matcher = prefix match on
   `aws.partner/stripe.com`, detail-type list = `props.eventTypes`,
   a fixed description string, bound to `props.eventBus`);
3. `props.topic.addToResourcePolicy` of one Allow statement for the
   `events.amazonaws.com` service principal, action `sns:Publish`,
   resource = the topic ARN, condition `StringEquals` on `aws:SourceArn`
   equal to the ARN of the rule built in step 2;
4. invocation of `props.messageTemplate` on `events.EventField` and
   `rule.addTarget` of one SNS target carrying the serialized result.

Mutation of the CDK construct tree (rule registration, topic policy,
rule targets) is modelled by explicit state passing through `SynthState`.
A thrown JavaScript error is modelled by `Except`: validation failure as
`ConstructError.validationError`, a user template function that throws as
`ConstructError.thrown` carrying the thrown value unmodified.
-/

/-- One segment of a string built inside a message template: either literal
text or a lazy JSON-path extraction token produced by
`events.EventField.fromPath` (aws-cdk-lib; resolved only at delivery time). -/
inductive Segment where
  | text (s : String)
  | path (p : String)
deriving Repr, DecidableEq

/-- Model of the `events.EventField` class that the construct passes to the
user template function: its static `fromPath` produces a path token. -/
structure EventFieldApi where
  fromPath : String → List Segment

/-- The `events.EventField` value itself (aws-cdk-lib): `fromPath p` is a
token string standing for the value at JSON path `p` of the delivered
event. -/
def EventField : EventFieldApi := ⟨fun p => [Segment.path p]⟩

/-- JSON-like value returned by a message template function: strings are
lists of segments (literal text interleaved with path tokens, as produced
by template-literal interpolation), plus objects and arrays. -/
inductive TemplateValue where
  | str (segs : List Segment)
  | obj (fields : List (String × TemplateValue))
  | arr (items : List TemplateValue)

/-- JSON escaping of one character (backslash and double quote). -/
def jsonEscapeChar (c : Char) : String :=
  if c = '\\' then "\\\\" else if c = '\"' then "\\\"" else String.singleton c

/-- JSON escaping of a string literal body. -/
def jsonEscape (s : String) : String :=
  String.join (s.toList.map jsonEscapeChar)

/-- Serialization of one string segment inside an input template: literal
text is escaped, a path token renders as a delivery-time placeholder. -/
def serializeSegment : Segment → String
  | Segment.text s => jsonEscape s
  | Segment.path p => "<" ++ p ++ ">"

/-- Serialization of the segments of one template string. -/
def serializeSegments (segs : List Segment) : String :=
  String.join (segs.map serializeSegment)

mutual
/-- Model of `events.RuleTargetInput.fromObject` (aws-cdk-lib): serialize
the template value to a single input-transformer template string, with
path tokens rendered as delivery-time placeholders. -/
def serializeValue : TemplateValue → String
  | TemplateValue.str segs => "\"" ++ serializeSegments segs ++ "\""
  | TemplateValue.obj fields => "\x7b" ++ serializeFields fields ++ "\x7d"
  | TemplateValue.arr items => "[" ++ serializeItems items ++ "]"

/-- Serialization of the key-value fields of a JSON object. -/
def serializeFields : List (String × TemplateValue) → String
  | [] => ""
  | [(k, v)] => "\"" ++ jsonEscape k ++ "\":" ++ serializeValue v
  | (k, v) :: rest =>
      "\"" ++ jsonEscape k ++ "\":" ++ serializeValue v ++ "," ++
        serializeFields rest

/-- Serialization of the items of a JSON array. -/
def serializeItems : List TemplateValue → String
  | [] => ""
  | [v] => serializeValue v
  | v :: rest => serializeValue v ++ "," ++ serializeItems rest
end

/-- An EventBridge event bus reference (`events.IEventBus`). -/
structure EventBus where
  eventBusName : String
deriving Repr, DecidableEq

/-- An SNS topic reference (`sns.ITopic`). -/
structure Topic where
  topicArn : String
deriving Repr, DecidableEq

/-- One matcher inside an event pattern: the construct uses
`\x7b prefix: 'aws.partner/stripe.com' \x7d`, a prefix match, as opposed to a
bare string, which would be an exact match. -/
inductive MatchRule where
  | prefixMatch (p : String)
  | exactMatch (s : String)
deriving Repr, DecidableEq

/-- The event pattern of the rule built at `src/index.ts` lines 109-114. -/
structure EventPattern where
  source : List MatchRule
  detailType : List String
deriving Repr, DecidableEq

/-- The EventBridge rule built at `src/index.ts` lines 107-116. `ruleArn`
models the instance-scoped `rule.ruleArn` token. -/
structure Rule where
  eventBusName : String
  eventPattern : EventPattern
  description : String
  ruleArn : String
deriving Repr, DecidableEq

/-- `iam.Effect` (only `ALLOW` is used by the construct). -/
inductive Effect where
  | allow
  | deny
deriving Repr, DecidableEq

/-- The IAM policy statement built at `src/index.ts` lines 132-146.
`conditionStringEquals` is the list of key-value pairs under the
`StringEquals` condition operator. -/
structure PolicyStatement where
  effect : Effect
  principals : List String
  actions : List String
  resources : List String
  conditionStringEquals : List (String × String)
deriving Repr, DecidableEq

/-- One SNS delivery target (`targets.SnsTopic`) attached to a rule:
destination topic plus the serialized message transform. -/
structure SnsTarget where
  topicArn : String
  message : String
deriving Repr, DecidableEq

/-- The mutable synthesis context threaded through construction: rules
registered in the construct tree, policy statements added to topic
resource policies, targets attached to rules (keyed by the owning rule
ARN), and the number of times the user template function was invoked. -/
structure SynthState where
  rules : List Rule
  policyStatements : List PolicyStatement
  ruleTargets : List (String × SnsTarget)
  templateCalls : Nat
deriving Repr, DecidableEq

/-- The empty synthesis context. -/
def SynthState.empty : SynthState := ⟨[], [], [], 0⟩

/-- A thrown JavaScript error: either the aggregated validation `Error`
built by the construct itself, or an arbitrary value thrown by the
caller-supplied template function, propagated unmodified. -/
inductive ConstructError where
  | validationError (message : String)
  | thrown (e : String)
deriving Repr, DecidableEq

/-- `StripeEventsToSnsProps` (`src/index.ts` lines 15-39). `Option` models
a JavaScript `undefined` field; the template function models a function
that may throw (`Except.error`) or return a JSON-like structure. -/
structure StripeEventsToSnsProps where
  eventBus : Option EventBus
  topic : Option Topic
  eventTypes : Option (List String)
  messageTemplate : Option (EventFieldApi → Except String TemplateValue)

/-- The check `!props.eventTypes || props.eventTypes.length === 0` at
`src/index.ts` line 81: the field is absent or the array is empty. -/
def eventTypesMissing (props : StripeEventsToSnsProps) : Bool :=
  match props.eventTypes with
  | none => true
  | some ts => ts.isEmpty

/-- The validation pass at `src/index.ts` lines 73-86: the error messages
pushed, in program order (eventBus, topic, eventTypes, messageTemplate). -/
def validationErrors (props : StripeEventsToSnsProps) : List String :=
  (if props.eventBus.isNone then ["eventBus is required"] else []) ++
  (if props.topic.isNone then ["topic is required"] else []) ++
  (if eventTypesMissing props then ["eventTypes must be a non-empty array"]
   else []) ++
  (if props.messageTemplate.isNone then ["messageTemplate is required"] else [])

/-- The message of the aggregated validation `Error`
(`src/index.ts` lines 89-91). -/
def validationMessage (errors : List String) : String :=
  "StripeEventsToSns validation failed:\n  - " ++
    String.intercalate "\n  - " errors

/-- The instance-scoped ARN of the rule created under the construct
instance at path `idPath` with child id `StripeEventRule`: distinct
instances yield distinct ARNs. -/
def ruleArnOf (idPath : String) : String :=
  "arn:aws:events:rule/" ++ idPath ++ "/StripeEventRule"

/-- The constructor of `StripeEventsToSns` (`src/index.ts` lines 69-176):
validate, create the rule, add the topic policy statement, invoke the
template function, attach the SNS target. Mutations happen in program
order, so a template function that throws leaves the rule and the policy
statement already registered in the synthesis context. -/
def stripeEventsToSns (idPath : String) (props : StripeEventsToSnsProps)
    (s0 : SynthState) : Except ConstructError Rule × SynthState :=
  let errors := validationErrors props
  if errors.length > 0 then
    (Except.error (ConstructError.validationError (validationMessage errors)), s0)
  else
    let bus := props.eventBus.getD ⟨""⟩
    let topic := props.topic.getD ⟨""⟩
    let eventTypes := props.eventTypes.getD []
    let messageTemplate :=
      props.messageTemplate.getD (fun _ => Except.ok (TemplateValue.str []))
    let rule : Rule :=
      { eventBusName := bus.eventBusName
        eventPattern :=
          { source := [MatchRule.prefixMatch "aws.partner/stripe.com"]
            detailType := eventTypes }
        description := "Generic rule to relay Stripe events to SNS"
        ruleArn := ruleArnOf idPath }
    let s1 : SynthState := { s0 with rules := s0.rules ++ [rule] }
    let stmt : PolicyStatement :=
      { effect := Effect.allow
        principals := ["events.amazonaws.com"]
        actions := ["sns:Publish"]
        resources := [topic.topicArn]
        conditionStringEquals := [("aws:SourceArn", rule.ruleArn)] }
    let s2 : SynthState := { s1 with policyStatements := s1.policyStatements ++ [stmt] }
    let s3 : SynthState := { s2 with templateCalls := s2.templateCalls + 1 }
    match messageTemplate EventField with
    | Except.error e => (Except.error (ConstructError.thrown e), s3)
    | Except.ok msg =>
        let target : SnsTarget :=
          { topicArn := topic.topicArn, message := serializeValue msg }
        (Except.ok rule,
          { s3 with ruleTargets := s3.ruleTargets ++ [(rule.ruleArn, target)] })

/-- The number of required-prop checks that fail, one per check at
`src/index.ts` lines 75-86. -/
def missingCount (props : StripeEventsToSnsProps) : Nat :=
  (if props.eventBus.isNone then 1 else 0) +
  (if props.topic.isNone then 1 else 0) +
  (if eventTypesMissing props then 1 else 0) +
  (if props.messageTemplate.isNone then 1 else 0)

/-- The rule the constructor builds for a valid configuration. -/
def composedRule (idPath : String) (bus : EventBus)
    (eventTypes : List String) : Rule :=
  { eventBusName := bus.eventBusName
    eventPattern :=
      { source := [MatchRule.prefixMatch "aws.partner/stripe.com"]
        detailType := eventTypes }
    description := "Generic rule to relay Stripe events to SNS"
    ruleArn := ruleArnOf idPath }

/-- The policy statement the constructor adds to the topic resource policy
for a valid configuration. -/
def composedStatement (idPath : String) (topic : Topic) : PolicyStatement :=
  { effect := Effect.allow
    principals := ["events.amazonaws.com"]
    actions := ["sns:Publish"]
    resources := [topic.topicArn]
    conditionStringEquals := [("aws:SourceArn", ruleArnOf idPath)] }

lemma isEmpty_false_of_ne_nil {ts : List String} (hne : ts ≠ []) :
    ts.isEmpty = false := by
  cases ts with
  | nil => exact absurd rfl hne
  | cons a l => rfl

lemma validationErrors_eq_nil (props : StripeEventsToSnsProps)
    (b : EventBus) (t : Topic) (ts : List String)
    (f : EventFieldApi → Except String TemplateValue)
    (hb : props.eventBus = some b) (ht : props.topic = some t)
    (hts : props.eventTypes = some ts) (hne : ts ≠ [])
    (hf : props.messageTemplate = some f) :
    validationErrors props = [] := by
  simp [validationErrors, eventTypesMissing, hb, ht, hts, hf,
    isEmpty_false_of_ne_nil hne]

lemma stripeEventsToSns_valid (idPath : String)
    (props : StripeEventsToSnsProps) (s0 : SynthState)
    (b : EventBus) (t : Topic) (ts : List String)
    (f : EventFieldApi → Except String TemplateValue)
    (hb : props.eventBus = some b) (ht : props.topic = some t)
    (hts : props.eventTypes = some ts) (hne : ts ≠ [])
    (hf : props.messageTemplate = some f) :
    stripeEventsToSns idPath props s0 =
      match f EventField with
      | Except.error e =>
          (Except.error (ConstructError.thrown e),
            { rules := s0.rules ++ [composedRule idPath b ts]
              policyStatements :=
                s0.policyStatements ++ [composedStatement idPath t]
              ruleTargets := s0.ruleTargets
              templateCalls := s0.templateCalls + 1 })
      | Except.ok msg =>
          (Except.ok (composedRule idPath b ts),
            { rules := s0.rules ++ [composedRule idPath b ts]
              policyStatements :=
                s0.policyStatements ++ [composedStatement idPath t]
              ruleTargets := s0.ruleTargets ++
                [(ruleArnOf idPath,
                  { topicArn := t.topicArn, message := serializeValue msg })]
              templateCalls := s0.templateCalls + 1 }) := by
  have hval := validationErrors_eq_nil props b t ts f hb ht hts hne hf
  simp only [stripeEventsToSns, hval, List.length_nil, Nat.lt_irrefl, if_false,
    hb, ht, hts, hf, Option.getD_some]
  cases hres : f EventField with
  | error e => simp [hres, composedRule, composedStatement]
  | ok msg => simp [hres, composedRule, composedStatement]

lemma validationErrors_length (props : StripeEventsToSnsProps) :
    (validationErrors props).length = missingCount props := by
  unfold validationErrors missingCount
  cases props.eventBus.isNone <;> cases props.topic.isNone <;>
    cases eventTypesMissing props <;> cases props.messageTemplate.isNone <;>
    simp

lemma stripeEventsToSns_invalid (idPath : String)
    (props : StripeEventsToSnsProps) (s0 : SynthState)
    (h : 0 < missingCount props) :
    stripeEventsToSns idPath props s0 =
      (Except.error (ConstructError.validationError
        (validationMessage (validationErrors props))), s0) := by
  have hlen : 0 < (validationErrors props).length :=
    (validationErrors_length props) ▸ h
  simp [stripeEventsToSns, hlen]

lemma missingCount_eq_zero (props : StripeEventsToSnsProps)
    (h : missingCount props = 0) :
    ∃ b t ts f, props.eventBus = some b ∧ props.topic = some t ∧
      props.eventTypes = some ts ∧ ts ≠ [] ∧
      props.messageTemplate = some f := by
  unfold missingCount at h
  cases hb : props.eventBus with
  | none => rw [hb] at h; simp at h
  | some b =>
    cases ht : props.topic with
    | none => rw [ht] at h; simp at h
    | some t =>
      cases hts : props.eventTypes with
      | none => rw [eventTypesMissing, hts] at h; simp at h
      | some ts =>
        cases hf : props.messageTemplate with
        | none => rw [hf] at h; simp at h
        | some f =>
          refine ⟨b, t, ts, f, rfl, rfl, rfl, ?_, rfl⟩
          intro hnil
          rw [eventTypesMissing, hts, hnil] at h
          simp at h

/-- A sample event bus used to witness the general theorems. -/
def sampleBus : EventBus := ⟨"TestEventBus"⟩

/-- A sample topic used to witness the general theorems. -/
def sampleTopic : Topic := ⟨"arn:aws:sns:us-east-1:123456789012:TestTopic"⟩

/-- The message template of the repository test suite
(`test/stripe-events-to-sns.test.ts` lines 26-29). -/
def sampleTemplate : EventFieldApi → Except String TemplateValue :=
  fun ef => Except.ok (TemplateValue.obj
    [("message", TemplateValue.str
        (Segment.text "Stripe Event: " :: ef.fromPath "$.detail-type")),
     ("data", TemplateValue.str (ef.fromPath "$.detail"))])

/-- The valid configuration of the repository test suite. -/
def sampleProps : StripeEventsToSnsProps :=
  { eventBus := some sampleBus
    topic := some sampleTopic
    eventTypes := some ["payment_intent.succeeded", "customer.created"]
    messageTemplate := some sampleTemplate }

/-- C1: for every valid configuration, the construct adds exactly one
resource-policy statement to the topic, an Allow statement granting
exactly `sns:Publish` to exactly the `events.amazonaws.com` service
principal on exactly the configured topic ARN, with a `StringEquals`
condition requiring `aws:SourceArn` to equal the ARN of the rule composed
by this same construct instance. -/
theorem claim_c1 (idPath : String) (props : StripeEventsToSnsProps)
    (s0 : SynthState) (b : EventBus) (t : Topic) (ts : List String)
    (f : EventFieldApi → Except String TemplateValue)
    (hb : props.eventBus = some b) (ht : props.topic = some t)
    (hts : props.eventTypes = some ts) (hne : ts ≠ [])
    (hf : props.messageTemplate = some f) :
    ∃ rule stmt,
      (stripeEventsToSns idPath props s0).2.rules = s0.rules ++ [rule] ∧
      (stripeEventsToSns idPath props s0).2.policyStatements =
        s0.policyStatements ++ [stmt] ∧
      stmt.effect = Effect.allow ∧
      stmt.principals = ["events.amazonaws.com"] ∧
      stmt.actions = ["sns:Publish"] ∧
      stmt.resources = [t.topicArn] ∧
      stmt.conditionStringEquals = [("aws:SourceArn", rule.ruleArn)] ∧
      rule.ruleArn = ruleArnOf idPath := by
  refine ⟨composedRule idPath b ts, composedStatement idPath t, ?_⟩
  rw [stripeEventsToSns_valid idPath props s0 b t ts f hb ht hts hne hf]
  cases hres : f EventField <;>
    simp [composedRule, composedStatement]

/-- C1 witness: the general theorem applied to the test-suite
configuration. -/
theorem claim_c1_witness :
    ∃ rule stmt,
      (stripeEventsToSns "Stack/Notifier" sampleProps SynthState.empty).2.rules =
        SynthState.empty.rules ++ [rule] ∧
      (stripeEventsToSns "Stack/Notifier" sampleProps
          SynthState.empty).2.policyStatements =
        SynthState.empty.policyStatements ++ [stmt] ∧
      stmt.effect = Effect.allow ∧
      stmt.principals = ["events.amazonaws.com"] ∧
      stmt.actions = ["sns:Publish"] ∧
      stmt.resources = [sampleTopic.topicArn] ∧
      stmt.conditionStringEquals = [("aws:SourceArn", rule.ruleArn)] ∧
      rule.ruleArn = ruleArnOf "Stack/Notifier" :=
  claim_c1 "Stack/Notifier" sampleProps SynthState.empty sampleBus sampleTopic
    ["payment_intent.succeeded", "customer.created"] sampleTemplate
    rfl rfl rfl (by simp) rfl

/-- C2: for every valid configuration, the detail-type list of the produced
rule equals the input `eventTypes` list exactly, element for element and in
order. -/
theorem claim_c2 (idPath : String) (props : StripeEventsToSnsProps)
    (s0 : SynthState) (b : EventBus) (t : Topic) (ts : List String)
    (f : EventFieldApi → Except String TemplateValue)
    (hb : props.eventBus = some b) (ht : props.topic = some t)
    (hts : props.eventTypes = some ts) (hne : ts ≠ [])
    (hf : props.messageTemplate = some f) :
    ∃ rule,
      (stripeEventsToSns idPath props s0).2.rules = s0.rules ++ [rule] ∧
      rule.eventPattern.detailType = ts := by
  refine ⟨composedRule idPath b ts, ?_⟩
  rw [stripeEventsToSns_valid idPath props s0 b t ts f hb ht hts hne hf]
  cases hres : f EventField <;> simp [composedRule]

/-- C2 witness: the general theorem applied to the test-suite
configuration, whose detail-type list is the two-element input list. -/
theorem claim_c2_witness :
    ∃ rule,
      (stripeEventsToSns "Stack/Notifier" sampleProps SynthState.empty).2.rules =
        SynthState.empty.rules ++ [rule] ∧
      rule.eventPattern.detailType =
        ["payment_intent.succeeded", "customer.created"] :=
  claim_c2 "Stack/Notifier" sampleProps SynthState.empty sampleBus sampleTopic
    ["payment_intent.succeeded", "customer.created"] sampleTemplate
    rfl rfl rfl (by simp) rfl

/-- C5: for every valid configuration the template function is invoked
exactly once during composition, and when it returns a value exactly one
delivery target is attached to the produced rule, referencing the
configured topic, with the serialized template result as the message
transform. -/
theorem claim_c5 (idPath : String) (props : StripeEventsToSnsProps)
    (s0 : SynthState) (b : EventBus) (t : Topic) (ts : List String)
    (f : EventFieldApi → Except String TemplateValue)
    (hb : props.eventBus = some b) (ht : props.topic = some t)
    (hts : props.eventTypes = some ts) (hne : ts ≠ [])
    (hf : props.messageTemplate = some f) :
    (stripeEventsToSns idPath props s0).2.templateCalls =
      s0.templateCalls + 1 ∧
    ∀ msg, f EventField = Except.ok msg →
      ∃ rule,
        (stripeEventsToSns idPath props s0).2.rules = s0.rules ++ [rule] ∧
        (stripeEventsToSns idPath props s0).2.ruleTargets =
          s0.ruleTargets ++
            [(rule.ruleArn,
              { topicArn := t.topicArn, message := serializeValue msg })] := by
  rw [stripeEventsToSns_valid idPath props s0 b t ts f hb ht hts hne hf]
  cases hres : f EventField with
  | error e =>
    refine ⟨rfl, fun msg hmsg => ?_⟩
    exact absurd hmsg (by simp)
  | ok msg0 =>
    refine ⟨rfl, fun msg hmsg => ⟨composedRule idPath b ts, ?_⟩⟩
    cases hmsg
    simp [composedRule]

/-- C5 witness: the general theorem applied to the test-suite
configuration; the single target carries the serialized template. -/
theorem claim_c5_witness :
    (stripeEventsToSns "Stack/Notifier" sampleProps
        SynthState.empty).2.templateCalls =
      SynthState.empty.templateCalls + 1 ∧
    ∃ rule,
      (stripeEventsToSns "Stack/Notifier" sampleProps SynthState.empty).2.rules =
        SynthState.empty.rules ++ [rule] ∧
      (stripeEventsToSns "Stack/Notifier" sampleProps
          SynthState.empty).2.ruleTargets =
        SynthState.empty.ruleTargets ++
          [(rule.ruleArn,
            { topicArn := sampleTopic.topicArn
              message := serializeValue (TemplateValue.obj
                [("message", TemplateValue.str
                    [Segment.text "Stripe Event: ",
                     Segment.path "$.detail-type"]),
                 ("data", TemplateValue.str [Segment.path "$.detail"])]) })] := by
  have h := claim_c5 "Stack/Notifier" sampleProps SynthState.empty sampleBus
    sampleTopic ["payment_intent.succeeded", "customer.created"] sampleTemplate
    rfl rfl rfl (by simp) rfl
  exact ⟨h.1, h.2 _ rfl⟩

/-- C6: for every valid configuration the produced rule matches the source
by prefix (not exactly) against the fixed partner namespace string, is
bound to the configured bus, and carries the fixed description; for the
two-element scenario list the detail-type list is exactly that list. -/
theorem claim_c6 (idPath : String) (props : StripeEventsToSnsProps)
    (s0 : SynthState) (b : EventBus) (t : Topic) (ts : List String)
    (f : EventFieldApi → Except String TemplateValue)
    (hb : props.eventBus = some b) (ht : props.topic = some t)
    (hts : props.eventTypes = some ts) (hne : ts ≠ [])
    (hf : props.messageTemplate = some f) :
    ∃ rule,
      (stripeEventsToSns idPath props s0).2.rules = s0.rules ++ [rule] ∧
      rule.eventPattern.source =
        [MatchRule.prefixMatch "aws.partner/stripe.com"] ∧
      (∀ s, rule.eventPattern.source ≠ [MatchRule.exactMatch s]) ∧
      rule.eventBusName = b.eventBusName ∧
      rule.description = "Generic rule to relay Stripe events to SNS" ∧
      (ts = ["payment_intent.succeeded", "customer.created"] →
        rule.eventPattern.detailType =
          ["payment_intent.succeeded", "customer.created"]) := by
  refine ⟨composedRule idPath b ts, ?_⟩
  rw [stripeEventsToSns_valid idPath props s0 b t ts f hb ht hts hne hf]
  cases hres : f EventField <;>
    simp [composedRule]

/-- C6 witness: the general theorem applied to the test-suite
configuration with the scenario event-type list. -/
theorem claim_c6_witness :
    ∃ rule,
      (stripeEventsToSns "Stack/Notifier" sampleProps SynthState.empty).2.rules =
        SynthState.empty.rules ++ [rule] ∧
      rule.eventPattern.source =
        [MatchRule.prefixMatch "aws.partner/stripe.com"] ∧
      (∀ s, rule.eventPattern.source ≠ [MatchRule.exactMatch s]) ∧
      rule.eventBusName = sampleBus.eventBusName ∧
      rule.description = "Generic rule to relay Stripe events to SNS" ∧
      (["payment_intent.succeeded", "customer.created"] =
          ["payment_intent.succeeded", "customer.created"] →
        rule.eventPattern.detailType =
          ["payment_intent.succeeded", "customer.created"]) :=
  claim_c6 "Stack/Notifier" sampleProps SynthState.empty sampleBus sampleTopic
    ["payment_intent.succeeded", "customer.created"] sampleTemplate
    rfl rfl rfl (by simp) rfl

lemma mem_validationErrors (props : StripeEventsToSnsProps) :
    (props.eventBus.isNone ↔ "eventBus is required" ∈ validationErrors props) ∧
    (props.topic.isNone ↔ "topic is required" ∈ validationErrors props) ∧
    (eventTypesMissing props ↔
      "eventTypes must be a non-empty array" ∈ validationErrors props) ∧
    (props.messageTemplate.isNone ↔
      "messageTemplate is required" ∈ validationErrors props) := by
  unfold validationErrors
  cases props.eventBus.isNone <;> cases props.topic.isNone <;>
    cases eventTypesMissing props <;> cases props.messageTemplate.isNone <;>
    decide

/-- A configuration with two violations (no event bus and an empty
event-type list), used as concrete input for the validation claims. -/
def invalidProps : StripeEventsToSnsProps :=
  { eventBus := none
    topic := some sampleTopic
    eventTypes := some []
    messageTemplate := some sampleTemplate }

/-- C3: for every configuration with at least one required prop missing or
empty, construction fails with the single aggregated validation error, and
the violation list carries exactly one message per missing field: its
length equals the number of missing fields, and each fixed message appears
exactly when its field is missing. -/
theorem claim_c3 (idPath : String) (props : StripeEventsToSnsProps)
    (s0 : SynthState) (h : 0 < missingCount props) :
    (stripeEventsToSns idPath props s0).1 =
      Except.error (ConstructError.validationError
        (validationMessage (validationErrors props))) ∧
    (validationErrors props).length = missingCount props ∧
    (props.eventBus.isNone ↔ "eventBus is required" ∈ validationErrors props) ∧
    (props.topic.isNone ↔ "topic is required" ∈ validationErrors props) ∧
    (eventTypesMissing props ↔
      "eventTypes must be a non-empty array" ∈ validationErrors props) ∧
    (props.messageTemplate.isNone ↔
      "messageTemplate is required" ∈ validationErrors props) :=
  ⟨by rw [stripeEventsToSns_invalid idPath props s0 h],
   validationErrors_length props,
   (mem_validationErrors props).1,
   (mem_validationErrors props).2.1,
   (mem_validationErrors props).2.2.1,
   (mem_validationErrors props).2.2.2⟩

/-- C3 witness: the general theorem applied to a configuration missing the
event bus and carrying an empty event-type list (two violations). -/
theorem claim_c3_witness :
    (stripeEventsToSns "Stack/N3" invalidProps SynthState.empty).1 =
      Except.error (ConstructError.validationError
        (validationMessage (validationErrors invalidProps))) ∧
    (validationErrors invalidProps).length = missingCount invalidProps ∧
    (invalidProps.eventBus.isNone ↔
      "eventBus is required" ∈ validationErrors invalidProps) ∧
    (invalidProps.topic.isNone ↔
      "topic is required" ∈ validationErrors invalidProps) ∧
    (eventTypesMissing invalidProps ↔
      "eventTypes must be a non-empty array" ∈ validationErrors invalidProps) ∧
    (invalidProps.messageTemplate.isNone ↔
      "messageTemplate is required" ∈ validationErrors invalidProps) :=
  claim_c3 "Stack/N3" invalidProps SynthState.empty (by decide)

/-- C7: construction raises the aggregated validation error if and only if
some required field is missing or empty; on validation failure the
synthesis context is left untouched (no rule, grant, or target), and an
empty event-type list yields the violation naming that field. -/
theorem claim_c7 (idPath : String) (props : StripeEventsToSnsProps)
    (s0 : SynthState) :
    ((∃ m, (stripeEventsToSns idPath props s0).1 =
        Except.error (ConstructError.validationError m)) ↔
      0 < missingCount props) ∧
    (0 < missingCount props →
      (stripeEventsToSns idPath props s0).2 = s0) ∧
    (props.eventTypes = some [] →
      "eventTypes must be a non-empty array" ∈ validationErrors props) := by
  refine ⟨⟨?_, ?_⟩, ?_, ?_⟩
  · rintro ⟨m, hm⟩
    by_contra hnot
    have h0 : missingCount props = 0 := Nat.eq_zero_of_not_pos hnot
    obtain ⟨b, t, ts, f, hb, ht, hts, hne, hf⟩ := missingCount_eq_zero props h0
    rw [stripeEventsToSns_valid idPath props s0 b t ts f hb ht hts hne hf] at hm
    cases hres : f EventField with
    | error e => rw [hres] at hm; simp at hm
    | ok msg => rw [hres] at hm; simp at hm
  · intro h
    rw [stripeEventsToSns_invalid idPath props s0 h]
    exact ⟨_, rfl⟩
  · intro h
    rw [stripeEventsToSns_invalid idPath props s0 h]
  · intro hts
    have hmiss : eventTypesMissing props = true := by
      rw [eventTypesMissing, hts]
      rfl
    exact (mem_validationErrors props).2.2.1.mp hmiss

/-- C7 witness: the general theorem applied to a configuration with an
empty event-type list: validation fails, the context is untouched, and the
violation names the event-types field. -/
theorem claim_c7_witness :
    (stripeEventsToSns "Stack/N7" invalidProps SynthState.empty).2 =
      SynthState.empty ∧
    0 < missingCount invalidProps ∧
    "eventTypes must be a non-empty array" ∈ validationErrors invalidProps := by
  have h := claim_c7 "Stack/N7" invalidProps SynthState.empty
  exact ⟨h.2.1 (by decide), by decide, h.2.2 rfl⟩

/-- C10: the violation list is always a sublist of the canonical
fixed-order list (eventBus, topic, eventTypes, messageTemplate, each with
its fixed text), and the aggregated error message begins with the fixed
text `StripeEventsToSns validation failed:`. -/
theorem claim_c10 (idPath : String) (props : StripeEventsToSnsProps)
    (s0 : SynthState) :
    List.Sublist (validationErrors props)
      ["eventBus is required", "topic is required",
       "eventTypes must be a non-empty array", "messageTemplate is required"] ∧
    (0 < missingCount props →
      ∃ rest,
        (stripeEventsToSns idPath props s0).1 =
          Except.error (ConstructError.validationError
            ("StripeEventsToSns validation failed:" ++ rest))) := by
  constructor
  · unfold validationErrors
    cases props.eventBus.isNone <;> cases props.topic.isNone <;>
      cases eventTypesMissing props <;> cases props.messageTemplate.isNone <;>
      decide
  · intro h
    rw [stripeEventsToSns_invalid idPath props s0 h]
    refine ⟨"\n  - " ++ String.intercalate "\n  - " (validationErrors props), ?_⟩
    rw [validationMessage, ← String.append_assoc]
    rfl

/-- C10 witness: the general theorem applied to a configuration with two
violations. -/
theorem claim_c10_witness :
    List.Sublist (validationErrors invalidProps)
      ["eventBus is required", "topic is required",
       "eventTypes must be a non-empty array", "messageTemplate is required"] ∧
    ∃ rest,
      (stripeEventsToSns "Stack/N10" invalidProps SynthState.empty).1 =
        Except.error (ConstructError.validationError
          ("StripeEventsToSns validation failed:" ++ rest)) := by
  have h := claim_c10 "Stack/N10" invalidProps SynthState.empty
  exact ⟨h.1, h.2 (by decide)⟩

/-- A template function that throws (models caller-supplied logic raising
an error at composition time). -/
def throwingTemplate : EventFieldApi → Except String TemplateValue :=
  fun _ => Except.error "template exploded"

/-- A valid configuration whose template function throws. -/
def throwingProps : StripeEventsToSnsProps :=
  { eventBus := some sampleBus
    topic := some sampleTopic
    eventTypes := some ["payment_intent.succeeded"]
    messageTemplate := some throwingTemplate }

/-- C4 counterexample: for a valid configuration whose template throws,
the error is propagated, but the construction is not all-or-nothing: the
rule and the policy statement are already built and registered when the
template is invoked, so the final context contains a rule and a grant
(only the delivery target is missing). -/
theorem claim_c4_counterexample :
    (stripeEventsToSns "Stack/N4" throwingProps SynthState.empty).1 =
      Except.error (ConstructError.thrown "template exploded") ∧
    (stripeEventsToSns "Stack/N4" throwingProps SynthState.empty).2.rules ≠
      [] ∧
    (stripeEventsToSns "Stack/N4" throwingProps
        SynthState.empty).2.policyStatements ≠ [] ∧
    (stripeEventsToSns "Stack/N4" throwingProps
        SynthState.empty).2.ruleTargets = [] := by
  refine ⟨rfl, ?_, ?_, rfl⟩ <;> decide

/-- C4 amended: for every valid configuration whose template function
throws, composition fails by propagating that error unmodified and no
delivery target is attached; however the rule and the policy-statement
grant have already been built and registered before the template runs, so
those two entities persist in the synthesis context. -/
theorem claim_c4 (idPath : String) (props : StripeEventsToSnsProps)
    (s0 : SynthState) (b : EventBus) (t : Topic) (ts : List String)
    (f : EventFieldApi → Except String TemplateValue) (e : String)
    (hb : props.eventBus = some b) (ht : props.topic = some t)
    (hts : props.eventTypes = some ts) (hne : ts ≠ [])
    (hf : props.messageTemplate = some f)
    (herr : f EventField = Except.error e) :
    (stripeEventsToSns idPath props s0).1 =
      Except.error (ConstructError.thrown e) ∧
    (stripeEventsToSns idPath props s0).2.ruleTargets = s0.ruleTargets ∧
    (stripeEventsToSns idPath props s0).2.rules =
      s0.rules ++ [composedRule idPath b ts] ∧
    (stripeEventsToSns idPath props s0).2.policyStatements =
      s0.policyStatements ++ [composedStatement idPath t] := by
  rw [stripeEventsToSns_valid idPath props s0 b t ts f hb ht hts hne hf, herr]
  exact ⟨rfl, rfl, rfl, rfl⟩

/-- C4 witness: the amended theorem applied to the throwing
configuration. -/
theorem claim_c4_witness :
    (stripeEventsToSns "Stack/N4w" throwingProps SynthState.empty).1 =
      Except.error (ConstructError.thrown "template exploded") ∧
    (stripeEventsToSns "Stack/N4w" throwingProps
        SynthState.empty).2.ruleTargets = SynthState.empty.ruleTargets ∧
    (stripeEventsToSns "Stack/N4w" throwingProps SynthState.empty).2.rules =
      SynthState.empty.rules ++
        [composedRule "Stack/N4w" sampleBus ["payment_intent.succeeded"]] ∧
    (stripeEventsToSns "Stack/N4w" throwingProps
        SynthState.empty).2.policyStatements =
      SynthState.empty.policyStatements ++
        [composedStatement "Stack/N4w" sampleTopic] :=
  claim_c4 "Stack/N4w" throwingProps SynthState.empty sampleBus sampleTopic
    ["payment_intent.succeeded"] throwingTemplate "template exploded"
    rfl rfl rfl (by simp) rfl rfl

/-- Erasure of the instance-scoped identifier of a rule. -/
def Rule.scrub (r : Rule) : Rule :=
  { r with ruleArn := "<instance>" }

/-- Erasure of the instance-scoped identifier referenced by the condition
of a policy statement. -/
def PolicyStatement.scrub (st : PolicyStatement) : PolicyStatement :=
  { st with conditionStringEquals :=
      st.conditionStringEquals.map (fun kv => (kv.1, "<instance>")) }

/-- Erasure of every instance-scoped identifier in a synthesis context. -/
def SynthState.scrub (s : SynthState) : SynthState :=
  { rules := s.rules.map Rule.scrub
    policyStatements := s.policyStatements.map PolicyStatement.scrub
    ruleTargets := s.ruleTargets.map (fun kv => ("<instance>", kv.2))
    templateCalls := s.templateCalls }

/-- C8: composing twice from the same configuration in two separate
instantiations yields structurally identical rule, grant, and target
descriptions, modulo the instance-scoped identifiers. -/
theorem claim_c8 (id1 id2 : String) (props : StripeEventsToSnsProps) :
    (stripeEventsToSns id1 props SynthState.empty).1.map Rule.scrub =
      (stripeEventsToSns id2 props SynthState.empty).1.map Rule.scrub ∧
    SynthState.scrub (stripeEventsToSns id1 props SynthState.empty).2 =
      SynthState.scrub (stripeEventsToSns id2 props SynthState.empty).2 := by
  rcases Nat.eq_zero_or_pos (missingCount props) with h0 | hpos
  · obtain ⟨b, t, ts, f, hb, ht, hts, hne, hf⟩ := missingCount_eq_zero props h0
    rw [stripeEventsToSns_valid id1 props SynthState.empty b t ts f
          hb ht hts hne hf,
        stripeEventsToSns_valid id2 props SynthState.empty b t ts f
          hb ht hts hne hf]
    cases hres : f EventField <;>
      simp [SynthState.scrub, Rule.scrub, PolicyStatement.scrub,
        SynthState.empty, composedRule, composedStatement, Except.map]
  · rw [stripeEventsToSns_invalid id1 props SynthState.empty hpos,
        stripeEventsToSns_invalid id2 props SynthState.empty hpos]
    exact ⟨rfl, rfl⟩

/-- A valid configuration whose event-type list has duplicates, empty
strings, and a string that is not a Stripe event type. -/
def oddProps : StripeEventsToSnsProps :=
  { eventBus := some sampleBus
    topic := some sampleTopic
    eventTypes := some
      ["", "", "customer.created", "customer.created",
       "not a stripe event type"]
    messageTemplate := some sampleTemplate }

/-- C9: validation looks only at presence and emptiness of the event-type
array, never at its elements: any non-empty list passes the check, two
non-empty lists validate identically, and the list is emitted verbatim as
the detail-type list of the rule. -/
theorem claim_c9 (idPath : String) (props : StripeEventsToSnsProps)
    (s0 : SynthState) (ts : List String)
    (hts : props.eventTypes = some ts) (hne : ts ≠ []) :
    eventTypesMissing props = false ∧
    "eventTypes must be a non-empty array" ∉ validationErrors props ∧
    (∀ ts2 : List String, ts2 ≠ [] →
      validationErrors { props with eventTypes := some ts2 } =
        validationErrors props) ∧
    (∀ b t f, props.eventBus = some b → props.topic = some t →
      props.messageTemplate = some f →
      ∃ rule,
        (stripeEventsToSns idPath props s0).2.rules = s0.rules ++ [rule] ∧
        rule.eventPattern.detailType = ts) := by
  have hmiss : eventTypesMissing props = false := by
    rw [eventTypesMissing, hts]
    exact isEmpty_false_of_ne_nil hne
  refine ⟨hmiss, ?_, ?_, ?_⟩
  · intro hmem
    have := (mem_validationErrors props).2.2.1.mpr hmem
    rw [hmiss] at this
    exact Bool.false_ne_true this
  · intro ts2 hne2
    unfold validationErrors eventTypesMissing
    rw [hts]
    simp [isEmpty_false_of_ne_nil hne, isEmpty_false_of_ne_nil hne2]
  · intro b t f hb ht hf
    refine ⟨composedRule idPath b ts, ?_⟩
    rw [stripeEventsToSns_valid idPath props s0 b t ts f hb ht hts hne hf]
    cases hres : f EventField <;> simp [composedRule]

/-- C9 witness: the general theorem applied to a list with duplicates,
empty strings, and a non-Stripe string: validation passes and the list is
emitted verbatim. -/
theorem claim_c9_witness :
    eventTypesMissing oddProps = false ∧
    "eventTypes must be a non-empty array" ∉ validationErrors oddProps ∧
    ∃ rule,
      (stripeEventsToSns "Stack/N9" oddProps SynthState.empty).2.rules =
        SynthState.empty.rules ++ [rule] ∧
      rule.eventPattern.detailType =
        ["", "", "customer.created", "customer.created",
         "not a stripe event type"] := by
  have h := claim_c9 "Stack/N9" oddProps SynthState.empty
    ["", "", "customer.created", "customer.created",
     "not a stripe event type"] rfl (by simp)
  exact ⟨h.1, h.2.1, h.2.2.2 sampleBus sampleTopic sampleTemplate rfl rfl rfl⟩
